import Mathlib

/-!
Shallow embedding of the procedural-planet generation core
(`src/react-app/utils/ColorPalettes.ts`, `TemporalEvolution.ts`,
`WeatherSystem.ts`).  JavaScript numbers are modelled as rationals
(`ℚ`) except where genuine transcendental functions are involved
(the temperature lattice of `WeatherSystem`, modelled over `ℝ`).
The seed-derived `NoiseGenerator` (file `utils/NoiseGenerator.ts`,
present in the repository but only its callers are in scope here) and
the platform primitives `Math.sin` / `Math.cos` / `Math.asin` /
`Math.atan2` are treated as opaque function parameters; every theorem
below quantifies over them, so the results hold for the actual noise
generator and the actual trigonometric primitives in particular.
-/

namespace PlanetCore

/-- Clamp to the unit interval, the ubiquitous
`Math.max(0, Math.min(1, x))` pattern of the source. -/
def clamp01 (x : ℚ) : ℚ := max 0 (min 1 x)

/-- JavaScript `Math.round` on an exact rational: half-way cases round
toward positive infinity, i.e. `⌊x + 1/2⌋`. -/
def jsRound (x : ℚ) : ℤ := ⌊x + 1/2⌋

/-! ## ColorPalettes.ts -/

/-- `interface RGB` — integer channel values. -/
structure RGB where
  r : ℤ
  g : ℤ
  b : ℤ
deriving DecidableEq

/-- `interface ColorPalette` (`ColorPalettes.ts`). -/
structure ColorPalette where
  deepOcean : RGB
  shallowWater : RGB
  beach : RGB
  lowland : RGB
  highland : RGB
  mountain : RGB
  peak : RGB
  polar : RGB
  atmosphereColor : ℤ
deriving DecidableEq

/-- The static palette table of `ColorPalettes.palettes`:
Icy, Temperate, Arid, Verdant. -/
def palettes : List ColorPalette :=
  [ { deepOcean := ⟨25, 25, 112⟩, shallowWater := ⟨65, 105, 225⟩,
      beach := ⟨176, 196, 222⟩, lowland := ⟨230, 230, 250⟩,
      highland := ⟨255, 250, 240⟩, mountain := ⟨248, 248, 255⟩,
      peak := ⟨255, 255, 255⟩, polar := ⟨255, 255, 255⟩,
      atmosphereColor := 0x87CEEB },
    { deepOcean := ⟨25, 25, 112⟩, shallowWater := ⟨65, 105, 225⟩,
      beach := ⟨238, 203, 173⟩, lowland := ⟨34, 139, 34⟩,
      highland := ⟨107, 142, 35⟩, mountain := ⟨160, 82, 45⟩,
      peak := ⟨139, 69, 19⟩, polar := ⟨255, 255, 255⟩,
      atmosphereColor := 0x87CEEB },
    { deepOcean := ⟨25, 25, 112⟩, shallowWater := ⟨65, 105, 225⟩,
      beach := ⟨244, 164, 96⟩, lowland := ⟨210, 180, 140⟩,
      highland := ⟨205, 133, 63⟩, mountain := ⟨160, 82, 45⟩,
      peak := ⟨139, 69, 19⟩, polar := ⟨255, 228, 181⟩,
      atmosphereColor := 0xFFA500 },
    { deepOcean := ⟨0, 100, 100⟩, shallowWater := ⟨0, 150, 150⟩,
      beach := ⟨238, 203, 173⟩, lowland := ⟨0, 100, 0⟩,
      highland := ⟨34, 139, 34⟩, mountain := ⟨107, 142, 35⟩,
      peak := ⟨85, 107, 47⟩, polar := ⟨144, 238, 144⟩,
      atmosphereColor := 0x90EE90 } ]

/-- `ColorPalettes.interpolateColor`: per-channel
`Math.round(c1 + (c2 - c1) * factor)`. -/
def interpolateColor (c1 c2 : RGB) (factor : ℚ) : RGB :=
  { r := jsRound ((c1.r : ℚ) + ((c2.r : ℚ) - (c1.r : ℚ)) * factor),
    g := jsRound ((c1.g : ℚ) + ((c2.g : ℚ) - (c1.g : ℚ)) * factor),
    b := jsRound ((c1.b : ℚ) + ((c2.b : ℚ) - (c1.b : ℚ)) * factor) }

/-- One anchor-by-anchor interpolation step of `getPalette` (the
`interpolatedPalette` record literal; the atmosphere tint is carried
discretely from the lower palette). -/
def interpPalette (p1 p2 : ColorPalette) (fraction : ℚ) : ColorPalette :=
  { deepOcean := interpolateColor p1.deepOcean p2.deepOcean fraction,
    shallowWater := interpolateColor p1.shallowWater p2.shallowWater fraction,
    beach := interpolateColor p1.beach p2.beach fraction,
    lowland := interpolateColor p1.lowland p2.lowland fraction,
    highland := interpolateColor p1.highland p2.highland fraction,
    mountain := interpolateColor p1.mountain p2.mountain fraction,
    peak := interpolateColor p1.peak p2.peak fraction,
    polar := interpolateColor p1.polar p2.polar fraction,
    atmosphereColor := p1.atmosphereColor }

/-- `ColorPalettes.getPalette` (the palette-record part; the returned
`getColor` closure is `getColorForHeight` applied to this record).
`scaledClimate = climate * (palettes.length - 1)`; when
`index >= palettes.length - 1` both endpoints are the last palette.
List access is via `getD`; for `climate ∈ [0, 1]` the indices are the
same as the source's direct array indexing (outside that range the JS
code reads `undefined` and throws, a case the spec's clamped-domain
contract never reaches). -/
instance : Inhabited RGB := ⟨⟨0, 0, 0⟩⟩

instance : Inhabited ColorPalette :=
  ⟨{ deepOcean := default, shallowWater := default, beach := default,
     lowland := default, highland := default, mountain := default,
     peak := default, polar := default, atmosphereColor := 0 }⟩

def getPaletteColors (climate : ℚ) : ColorPalette :=
  let scaledClimate := climate * (((palettes.length : ℤ) : ℚ) - 1)
  let index : ℤ := ⌊scaledClimate⌋
  let fraction := scaledClimate - (index : ℚ)
  if index ≥ (palettes.length : ℤ) - 1 then
    let last := palettes.getD (palettes.length - 1) default
    interpPalette last last fraction
  else
    interpPalette (palettes.getD index.toNat default)
      (palettes.getD (index.toNat + 1) default) fraction

/-- `ColorPalettes.getColorForHeight`: the 7-band height
classification relative to `seaLevel`. -/
def getColorForHeight (palette : ColorPalette) (height seaLevel : ℚ) : RGB :=
  if height < seaLevel * 0.7 then
    palette.deepOcean
  else if height < seaLevel then
    interpolateColor palette.deepOcean palette.shallowWater
      ((height - seaLevel * 0.7) / (seaLevel * 0.3))
  else if height < seaLevel + 0.05 then
    interpolateColor palette.shallowWater palette.beach
      ((height - seaLevel) / 0.05)
  else if height < seaLevel + 0.3 then
    interpolateColor palette.beach palette.lowland
      ((height - seaLevel - 0.05) / 0.25)
  else if height < seaLevel + 0.5 then
    interpolateColor palette.lowland palette.highland
      ((height - seaLevel - 0.3) / 0.2)
  else if height < seaLevel + 0.7 then
    interpolateColor palette.highland palette.mountain
      ((height - seaLevel - 0.5) / 0.2)
  else if height < seaLevel + 0.9 then
    interpolateColor palette.mountain palette.peak
      ((height - seaLevel - 0.7) / 0.2)
  else
    palette.polar

/-- A color strictly between two others, channelwise. -/
def strictlyBetween (lo c hi : RGB) : Prop :=
  lo.r < c.r ∧ c.r < hi.r ∧ lo.g < c.g ∧ c.g < hi.g ∧ lo.b < c.b ∧ c.b < hi.b

instance (lo c hi : RGB) : Decidable (strictlyBetween lo c hi) := by
  unfold strictlyBetween; infer_instance

/-! ## TemporalEvolution.ts -/

/-- The fields of `PlanetSettings` (from `pages/Terraformer.tsx`) that
`TemporalEvolution` reads or derives.  The remaining UI-only fields
(rotation, audio, camera, …) are copied verbatim by the
`{ ...this.baseSettings }` spread and never touched by the evolution
code, so they are omitted from the embedding. -/
structure PlanetSettings where
  seed : ℚ
  landWaterRatio : ℚ
  coastlineComplexity : ℚ
  mountainDensity : ℚ
  climate : ℚ
  atmosphere : ℚ
  clouds : ℚ
deriving DecidableEq

/-- `interface TemporalSettings` (`TemporalEvolution.ts`). -/
structure TemporalSettings where
  geologicalTime : ℚ
  weatherCycle : ℚ
  climaticShift : ℚ
  erosionLevel : ℚ
  timeSpeed : ℚ
  isPaused : Bool
  showTemporalEffects : Bool
  tectonicActivity : ℚ
  oceanLevel : ℚ
  atmosphericEvolution : ℚ
deriving DecidableEq

/-- `interface TemporalSnapshot`. -/
structure TemporalSnapshot where
  landWaterRatio : ℚ
  mountainDensity : ℚ
  coastlineComplexity : ℚ
  climate : ℚ
  atmosphere : ℚ
  clouds : ℚ
  timestamp : ℚ
deriving DecidableEq

/-- The mutable state of a `TemporalEvolution` instance: the base
settings snapshot, the simulated clock and the snapshot history.
The two noise generators (`temporalNoise` = seed+50000,
`weatherNoise` = seed+60000) are deterministic functions of the seed;
they are passed explicitly to the operations below. -/
structure TEState where
  baseSettings : PlanetSettings
  currentTime : ℚ
  snapshots : List TemporalSnapshot
deriving DecidableEq

/-- `TemporalEvolution.updateTime`. -/
def updateTime (deltaTime : ℚ) (ts : TemporalSettings) (st : TEState) : TEState :=
  if ts.isPaused then st
  else { st with currentTime := st.currentTime + deltaTime * ts.timeSpeed }

/-- `TemporalEvolution.fastForward`. -/
def fastForward (duration : ℚ) (st : TEState) : TEState :=
  { st with currentTime := st.currentTime + duration }

/-- `TemporalEvolution.rewind`. -/
def rewind (duration : ℚ) (st : TEState) : TEState :=
  { st with currentTime := max 0 (st.currentTime - duration) }

/-- `TemporalEvolution.resetTime`. -/
def resetTime (st : TEState) : TEState :=
  { st with currentTime := 0, snapshots := [] }

/-- `TemporalEvolution.saveSnapshot` (push, keep the last 100). -/
def saveSnapshot (st : TEState) : TEState :=
  let snap : TemporalSnapshot :=
    { landWaterRatio := st.baseSettings.landWaterRatio,
      mountainDensity := st.baseSettings.mountainDensity,
      coastlineComplexity := st.baseSettings.coastlineComplexity,
      climate := st.baseSettings.climate,
      atmosphere := st.baseSettings.atmosphere,
      clouds := st.baseSettings.clouds,
      timestamp := st.currentTime }
  let pushed := st.snapshots ++ [snap]
  { st with snapshots := if pushed.length > 100 then pushed.drop 1 else pushed }

/-- `TemporalEvolution.getTemporallyEvolvedSettings`.
`tnoise` and `wnoise` stand for `this.temporalNoise.noise` and
`this.weatherNoise.noise`; `sinFn` stands for `Math.sin`.  The record
updates are sequential, exactly as the source mutates `evolved`: the
geological branch derives mountain/coastline/ocean from the *base*
values, the weather branch layers its atmosphere term on the
already-evolved atmosphere. -/
def getTemporallyEvolvedSettings (tnoise wnoise : ℚ → ℚ → ℚ → ℚ)
    (sinFn : ℚ → ℚ) (st : TEState) (ts : TemporalSettings) : PlanetSettings :=
  let base := st.baseSettings
  let time := st.currentTime
  let e1 :=
    if 0 < ts.geologicalTime then
      let geoScale := ts.geologicalTime * 10
      let mountainCycle := tnoise (time * 0.001) 0 geoScale * 0.3
      let erosionFactor := ts.erosionLevel ^ 2
      let coastlineSmoothing := erosionFactor * 0.4
      let oceanCycle := tnoise (time * 0.0008) (geoScale * 2) 0 * 0.3
      { base with
        mountainDensity :=
          clamp01 (base.mountainDensity + mountainCycle * ts.tectonicActivity),
        coastlineComplexity :=
          clamp01 (base.coastlineComplexity - coastlineSmoothing +
            tnoise (time * 0.0005) geoScale 0 * 0.2),
        landWaterRatio :=
          clamp01 (base.landWaterRatio + oceanCycle + ts.oceanLevel) }
    else base
  let e2 :=
    if 0 < ts.climaticShift then
      let climateNoise := tnoise (time * 0.0002) (ts.climaticShift * 5) 0
      { e1 with climate :=
          clamp01 (base.climate + climateNoise * ts.climaticShift * 0.5) }
    else e1
  let e3 :=
    if 0 < ts.atmosphericEvolution then
      let atmoNoise := tnoise (time * 0.0001) 0 (ts.atmosphericEvolution * 3)
      { e2 with atmosphere :=
          clamp01 (base.atmosphere + atmoNoise * ts.atmosphericEvolution * 0.4) }
    else e2
  if 0 < ts.weatherCycle then
    let seasonalCycle := sinFn (time * 0.01 * ts.weatherCycle) * 0.3
    let weatherNoise := wnoise (time * 0.02) (ts.weatherCycle * 2) 0 * 0.4
    let e4 :=
      { e3 with clouds :=
          clamp01 (base.clouds + seasonalCycle + weatherNoise * ts.weatherCycle) }
    { e4 with atmosphere := clamp01 (e4.atmosphere + seasonalCycle * 0.1) }
  else e3

/-- Formatting of `n / 10` for a nonnegative JS integer `n`, as JS
number-to-string prints it: an integer when divisible by ten,
otherwise one decimal digit. -/
def formatTenths (n : ℤ) : String :=
  if n % 10 = 0 then toString (n / 10)
  else toString (n / 10) ++ "." ++ toString (n % 10)

/-- `TemporalEvolution.getTimeDescription`. -/
def getTimeDescription (st : TEState) : String :=
  let time := st.currentTime
  if time < 100 then
    toString ⌊time⌋ ++ " years"
  else if time < 100000 then
    toString ⌊time / 1000⌋ ++ "K years"
  else if time < 1000000 then
    formatTenths ⌊time / 100000⌋ ++ "M years"
  else
    formatTenths ⌊time / 100000000⌋ ++ "B years"

/-- `TemporalEvolution.getEpochName`. -/
def getEpochName (st : TEState) : String :=
  let time := st.currentTime
  if time < 1000 then "Present Era"
  else if time < 10000 then "Recent Holocene"
  else if time < 100000 then "Pleistocene"
  else if time < 1000000 then "Quaternary"
  else if time < 10000000 then "Neogene"
  else if time < 100000000 then "Paleogene"
  else if time < 500000000 then "Mesozoic"
  else "Paleozoic"

/-! ## WeatherSystem.ts — storm population -/

/-- The four storm types of `StormSystem['type']`. -/
inductive StormType where
  | thunderstorm
  | cyclone
  | dust
  | aurora
deriving DecidableEq

/-- `interface StormSystem`.  The `THREE.Vector3` position is split
into its three components. -/
structure Storm where
  px : ℚ
  py : ℚ
  pz : ℚ
  radius : ℚ
  intensity : ℚ
  rotation : ℚ
  type : StormType
  lifespan : ℚ
  age : ℚ
deriving DecidableEq

/-- `stormTypes[Math.floor(Math.random() * stormTypes.length)]` with
the random draw `r ∈ [0, 1)` made explicit. -/
def stormTypeOf (r : ℚ) : StormType :=
  match (⌊r * 4⌋).toNat with
  | 0 => .thunderstorm
  | 1 => .cyclone
  | 2 => .dust
  | _ => .aurora

/-- The outcomes of the `Math.random()` calls consumed by
`spawnRandomStorm`, in source order: the type draw, the three position
components, radius, intensity, lifespan, and the pole-side draw used
only by the aurora branch. -/
structure SpawnRand where
  rType : ℚ
  rX : ℚ
  rY : ℚ
  rZ : ℚ
  rRadius : ℚ
  rIntensity : ℚ
  rLifespan : ℚ
  rSide : ℚ
deriving DecidableEq

/-- Each `Math.random()` outcome lies in `[0, 1)`. -/
def SpawnRand.valid (r : SpawnRand) : Prop :=
  0 ≤ r.rType ∧ r.rType < 1 ∧ 0 ≤ r.rX ∧ r.rX < 1 ∧ 0 ≤ r.rY ∧ r.rY < 1 ∧
  0 ≤ r.rZ ∧ r.rZ < 1 ∧ 0 ≤ r.rRadius ∧ r.rRadius < 1 ∧
  0 ≤ r.rIntensity ∧ r.rIntensity < 1 ∧ 0 ≤ r.rLifespan ∧ r.rLifespan < 1 ∧
  0 ≤ r.rSide ∧ r.rSide < 1

instance (r : SpawnRand) : Decidable r.valid := by
  unfold SpawnRand.valid; infer_instance

/-- `WeatherSystem.spawnRandomStorm`: the base storm literal followed
by the type-specific `switch` adjustments. -/
def spawnRandomStorm (r : SpawnRand) : Storm :=
  let type := stormTypeOf r.rType
  let storm : Storm :=
    { px := (r.rX - 0.5) * 2,
      py := (r.rY - 0.5) * 2,
      pz := (r.rZ - 0.5) * 0.2 + 1.6,
      radius := 0.1 + r.rRadius * 0.3,
      intensity := 0.5 + r.rIntensity * 0.5,
      rotation := 0,
      type := type,
      lifespan := 50 + r.rLifespan * 200,
      age := 0 }
  match type with
  | .thunderstorm => storm
  | .cyclone =>
      { storm with radius := storm.radius * 1.5,
                   lifespan := storm.lifespan * 2,
                   intensity := storm.intensity * 1.2 }
  | .dust =>
      { storm with radius := storm.radius * 2,
                   intensity := storm.intensity * 0.8,
                   pz := 1.55 }
  | .aurora =>
      { storm with radius := storm.radius * 0.5,
                   pz := 2.0,
                   px := if r.rSide > 0.5 then 1.2 else -1.2 }

/-- The number of entries of `globalWindPattern`: the construction
loops run `lat = -90, -80, …, 90` (19 values) and
`lon = -180, -170, …, 180` (37 values), 703 vectors in all. -/
def windPatternLength : ℤ := 19 * 37

/-- The per-storm mutation of `WeatherSystem.update`'s filter body:
age and rotation advance, wind drift (the lattice lookup `wind` is
passed as a function, standing for the seed-derived, normalized
`globalWindPattern` array), then the lifecycle intensity envelope. -/
def stepStorm (wind : ℤ → ℚ × ℚ × ℚ) (deltaTime timeSpeed : ℚ)
    (s : Storm) : Storm :=
  let age := s.age + deltaTime * timeSpeed
  let rotation := s.rotation + deltaTime * timeSpeed * s.intensity
  let windIndex := ⌊(s.px + 1) * 18⌋ + ⌊(s.py + 1) * 18⌋ * 36
  let pos :=
    if 0 ≤ windIndex ∧ windIndex < windPatternLength then
      let w := wind windIndex
      (s.px + w.1 * (deltaTime * 0.01), s.py + w.2.1 * (deltaTime * 0.01),
       s.pz + w.2.2 * (deltaTime * 0.01))
    else (s.px, s.py, s.pz)
  let intensity :=
    if age < s.lifespan * 0.2 then
      (age / (s.lifespan * 0.2)) * s.intensity
    else if age > s.lifespan * 0.8 then
      s.intensity * (1 - (age - s.lifespan * 0.8) / (s.lifespan * 0.2))
    else s.intensity
  { px := pos.1, py := pos.2.1, pz := pos.2.2, radius := s.radius,
    intensity := intensity, rotation := rotation, type := s.type,
    lifespan := s.lifespan, age := age }

/-- The filter predicate `storm.age < storm.lifespan && storm.intensity > 0.1`
evaluated on the already-mutated storm. -/
def keepStorm (s : Storm) : Bool :=
  decide (s.age < s.lifespan) && decide (s.intensity > 0.1)

/-- The storm-set transformation of `WeatherSystem.update`: every
storm is mutated, then filtered by the lifecycle predicate. -/
def updateStorms (wind : ℤ → ℚ × ℚ × ℚ) (deltaTime timeSpeed : ℚ)
    (storms : List Storm) : List Storm :=
  (storms.map (stepStorm wind deltaTime timeSpeed)).filter keepStorm

/-- One full `WeatherSystem.update` tick on the storm set: the filter
pass followed by the 2%-probability spawn, whose outcome (did the
`Math.random() < 0.02` gate fire, and with which random draws) is made
explicit as an `Option SpawnRand`. -/
def updateWeather (wind : ℤ → ℚ × ℚ × ℚ) (deltaTime timeSpeed : ℚ)
    (storms : List Storm) (spawn : Option SpawnRand) : List Storm :=
  let survivors := updateStorms wind deltaTime timeSpeed storms
  match spawn with
  | some r => survivors ++ [spawnRandomStorm r]
  | none => survivors

/-! ## WeatherSystem.ts — temperature lattice (over `ℝ`) -/

/-- A 3D position, for `getTemperatureAt`. -/
structure V3 where
  x : ℝ
  y : ℝ
  z : ℝ

/-- `Math.atan2(y, x)` on the reals. -/
noncomputable def atan2 (y x : ℝ) : ℝ :=
  if 0 < x then Real.arctan (y / x)
  else if x < 0 then
    (if 0 ≤ y then Real.arctan (y / x) + Real.pi
     else Real.arctan (y / x) - Real.pi)
  else
    (if 0 < y then Real.pi / 2
     else if y < 0 then -(Real.pi / 2)
     else 0)

/-- One cell of `temperatureMap` as built by `generateTemperatureMap`:
row `latIdx` is the latitude `5 * latIdx` (the loop runs
`lat = 0, 5, …, 175`, 36 rows), column `lonIdx` the longitude
`5 * lonIdx` (`lon = 0, 5, …, 355`, 72 columns); the latitude-cosine
base plus noise variation is clamped to `[0, 1]`. -/
noncomputable def temperatureMapCell (noise : ℝ → ℝ → ℝ → ℝ)
    (latIdx lonIdx : ℤ) : ℝ :=
  let lat : ℝ := 5 * latIdx
  let lon : ℝ := 5 * lonIdx
  let latNorm := (lat - 90) / 90
  let baseTemp := Real.cos (latNorm * Real.pi * 0.5)
  let terrainVariation := noise (lon * 0.02) (lat * 0.02) 2 * 0.3
  max 0 (min 1 (baseTemp + terrainVariation))

/-- `WeatherSystem.getTemperatureAt`: the derived lat/lon index is
checked against the lattice extents (36 rows, 72 columns, as built by
`generateTemperatureMap`); out of range the default `0.5` is
returned.  `noise` stands for the (seed+70000)-derived generator. -/
noncomputable def getTemperatureAt (noise : ℝ → ℝ → ℝ → ℝ) (p : V3) : ℝ :=
  let lat := Real.arcsin p.y * 180 / Real.pi + 90
  let lon := atan2 p.z p.x * 180 / Real.pi + 180
  let latIndex := ⌊lat / 5⌋
  let lonIndex := ⌊lon / 5⌋
  if 0 ≤ latIndex ∧ latIndex < 36 ∧ 0 ≤ lonIndex ∧ lonIndex < 72 then
    temperatureMapCell noise latIndex lonIndex
  else 0.5

/-! ## Bounds predicate and concrete fixtures -/

/-- The declared `[0, 1]` bounds of the six terrain/climate fields that
`getTemporallyEvolvedSettings` derives (data-model contract of
`PlanetParameters`). -/
def settingsInBounds (s : PlanetSettings) : Prop :=
  0 ≤ s.landWaterRatio ∧ s.landWaterRatio ≤ 1 ∧
  0 ≤ s.coastlineComplexity ∧ s.coastlineComplexity ≤ 1 ∧
  0 ≤ s.mountainDensity ∧ s.mountainDensity ≤ 1 ∧
  0 ≤ s.climate ∧ s.climate ≤ 1 ∧
  0 ≤ s.atmosphere ∧ s.atmosphere ≤ 1 ∧
  0 ≤ s.clouds ∧ s.clouds ≤ 1

instance (s : PlanetSettings) : Decidable (settingsInBounds s) := by
  unfold settingsInBounds; infer_instance

/-- A zero wind lattice, for concrete evaluations. -/
def wind0 : ℤ → ℚ × ℚ × ℚ := fun _ => (0, 0, 0)

/-- Zero stand-ins for the noise generators and `Math.sin`. -/
def noise0 : ℚ → ℚ → ℚ → ℚ := fun _ _ _ => 0

def sin0 : ℚ → ℚ := fun _ => 0

/-- A freshly spawned storm: age 0, lifespan 100, full intensity. -/
def freshStorm : Storm :=
  { px := 0, py := 0, pz := 8/5, radius := 1/5, intensity := 1,
    rotation := 0, type := .thunderstorm, lifespan := 100, age := 0 }

/-- A storm in the steady phase of its life (age 50 of 100). -/
def midStorm : Storm :=
  { px := 0, py := 0, pz := 8/5, radius := 1/5, intensity := 1,
    rotation := 0, type := .thunderstorm, lifespan := 100, age := 50 }

/-- Random draws that spawn a cyclone (`⌊(1/4)·4⌋ = 1`) with a high
intensity roll. -/
def cycloneRand : SpawnRand :=
  { rType := 1/4, rX := 1/2, rY := 1/2, rZ := 1/2, rRadius := 1/2,
    rIntensity := 9/10, rLifespan := 1/2, rSide := 1/2 }

/-- Random draws that spawn a thunderstorm with median rolls. -/
def medianRand : SpawnRand :=
  { rType := 0, rX := 1/2, rY := 1/2, rZ := 1/2, rRadius := 1/2,
    rIntensity := 1/2, rLifespan := 1/2, rSide := 1/2 }

/-- A concrete base parameter set (the repository's default planet:
landWaterRatio 0.4, coastlineComplexity 0.5, mountainDensity 0.3,
climate 0.5, atmosphere 0.4, clouds 0.6). -/
def baseSettings0 : PlanetSettings :=
  { seed := 42, landWaterRatio := 2/5, coastlineComplexity := 1/2,
    mountainDensity := 3/10, climate := 1/2, atmosphere := 2/5,
    clouds := 3/5 }

/-- Concrete temporal settings with every evolution knob active. -/
def temporal0 : TemporalSettings :=
  { geologicalTime := 1/2, weatherCycle := 1/2, climaticShift := 1/2,
    erosionLevel := 1/2, timeSpeed := 1, isPaused := false,
    showTemporalEffects := true, tectonicActivity := 1/2,
    oceanLevel := 0, atmosphericEvolution := 1/2 }

/-- A `TemporalEvolution` state over `baseSettings0` at clock time `t`
with no snapshot history. -/
def atTime (t : ℚ) : TEState :=
  { baseSettings := baseSettings0, currentTime := t, snapshots := [] }

/-- A snapshot record, for exercising snapshot-history independence. -/
def snapshot0 : TemporalSnapshot :=
  { landWaterRatio := 2/5, mountainDensity := 3/10,
    coastlineComplexity := 1/2, climate := 1/2, atmosphere := 2/5,
    clouds := 3/5, timestamp := 0 }

/-- Concrete temporal settings with the geological knob off. -/
def temporalNoGeo : TemporalSettings :=
  { geologicalTime := 0, weatherCycle := 1/2, climaticShift := 1/2,
    erosionLevel := 1/2, timeSpeed := 1, isPaused := false,
    showTemporalEffects := true, tectonicActivity := 1/2,
    oceanLevel := 0, atmosphericEvolution := 1/2 }

/-! ## Helper lemmas -/

lemma clamp01_nonneg (x : ℚ) : 0 ≤ clamp01 x := le_max_left 0 _

lemma clamp01_le_one (x : ℚ) : clamp01 x ≤ 1 :=
  max_le (by norm_num) (min_le_left 1 x)

/-- A storm returned by the `update` filter satisfies the filter
predicate. -/
lemma mem_updateStorms (wind : ℤ → ℚ × ℚ × ℚ) (deltaTime timeSpeed : ℚ)
    (storms : List Storm) (s : Storm)
    (hs : s ∈ updateStorms wind deltaTime timeSpeed storms) :
    (∃ t ∈ storms, s = stepStorm wind deltaTime timeSpeed t) ∧
      s.age < s.lifespan ∧ (0.1 : ℚ) < s.intensity := by
  unfold updateStorms at hs
  have hkeep := List.of_mem_filter hs
  have hmap := List.mem_of_mem_filter hs
  rcases List.mem_map.mp hmap with ⟨t, ht, hts⟩
  have hk : s.age < s.lifespan ∧ (0.1 : ℚ) < s.intensity := by
    unfold keepStorm at hkeep
    constructor
    · exact of_decide_eq_true (Bool.and_elim_left hkeep)
    · exact of_decide_eq_true (Bool.and_elim_right hkeep)
  exact ⟨⟨t, ht, hts.symm⟩, hk⟩

/-- A freshly spawned storm has `age = 0` and, for valid random draws,
a strictly positive lifespan. -/
lemma spawn_age_lt_lifespan (r : SpawnRand) (h : 0 ≤ r.rLifespan) :
    (spawnRandomStorm r).age < (spawnRandomStorm r).lifespan := by
  unfold spawnRandomStorm
  cases stormTypeOf r.rType <;> simp <;> linarith

lemma floor_int_add_half (n : ℤ) : ⌊(n : ℚ) + 1/2⌋ = n := by
  rw [Int.floor_int_add]
  norm_num

/-- Interpolating with factor 0 returns the first color: the rounding
`⌊c + 1/2⌋` of an integer channel is the channel itself. -/
lemma interpolateColor_zero (c1 c2 : RGB) : interpolateColor c1 c2 0 = c1 := by
  obtain ⟨r, g, b⟩ := c1
  unfold interpolateColor jsRound
  simp only [mul_zero, add_zero, RGB.mk.injEq]
  exact ⟨floor_int_add_half r, floor_int_add_half g, floor_int_add_half b⟩

lemma interpPalette_zero (p q : ColorPalette) : interpPalette p q 0 = p := by
  obtain ⟨a1, a2, a3, a4, a5, a6, a7, a8, a9⟩ := p
  unfold interpPalette
  simp only [interpolateColor_zero, ColorPalette.mk.injEq]

/-- At `climate = 1` the palette clamps to the last (Verdant) palette:
`index = 3 ≥ palettes.length - 1`, `fraction = 0`. -/
lemma getPalette_one : getPaletteColors 1 = palettes.getD 3 default := by
  unfold getPaletteColors
  have hlen : palettes.length = 4 := rfl
  rw [hlen]
  norm_num
  rw [interpPalette_zero]

/-- With `seaLevel = 0.5`, height `0.3` falls below `0.7 × 0.5 = 0.35`
and lands in the deep-ocean band, for every palette. -/
lemma colorAt_deepOcean_band (pal : ColorPalette) :
    getColorForHeight pal (3/10) (1/2) = pal.deepOcean := by
  unfold getColorForHeight
  rw [if_pos (by norm_num : (3:ℚ)/10 < 1/2 * 0.7)]

/-- With `seaLevel = 0.5`, height `0.95` falls in the
`[seaLevel+0.3, seaLevel+0.5)` band and interpolates lowland→highland
at factor `(0.95 - 0.5 - 0.3)/0.2 = 0.75`, for every palette. -/
lemma colorAt_highland_band (pal : ColorPalette) :
    getColorForHeight pal (19/20) (1/2) =
      interpolateColor pal.lowland pal.highland (3/4) := by
  unfold getColorForHeight
  rw [if_neg (by norm_num : ¬((19:ℚ)/20 < 1/2 * 0.7)),
      if_neg (by norm_num : ¬((19:ℚ)/20 < 1/2)),
      if_neg (by norm_num : ¬((19:ℚ)/20 < 1/2 + 0.05)),
      if_neg (by norm_num : ¬((19:ℚ)/20 < 1/2 + 0.3)),
      if_pos (by norm_num : (19:ℚ)/20 < 1/2 + 0.5)]
  norm_num

/-- Under a nonnegative time step, the per-tick lifecycle mutation
never increases a surviving storm's intensity: the growing branch
multiplies it by `age/(0.2·lifespan) ∈ [0, 1)`, the dissipating branch
by a factor `< 1`. -/
lemma stepStorm_intensity_le (wind : ℤ → ℚ × ℚ × ℚ) (deltaTime timeSpeed : ℚ)
    (s : Storm) (hdt : 0 ≤ deltaTime) (hts : 0 ≤ timeSpeed)
    (hage : 0 ≤ s.age) (hi : 0 ≤ s.intensity)
    (hsurv : s.age + deltaTime * timeSpeed < s.lifespan) :
    (stepStorm wind deltaTime timeSpeed s).intensity ≤ s.intensity := by
  have hage' : 0 ≤ s.age + deltaTime * timeSpeed :=
    add_nonneg hage (mul_nonneg hdt hts)
  have hL : 0 < s.lifespan := lt_of_le_of_lt hage' hsurv
  unfold stepStorm
  dsimp only
  split_ifs with h1 h2
  · -- growing phase: factor in [0, 1)
    have hL2 : 0 < s.lifespan * 0.2 := lt_of_le_of_lt hage' h1
    have hfac : (s.age + deltaTime * timeSpeed) / (s.lifespan * 0.2) ≤ 1 :=
      le_of_lt ((div_lt_one hL2).mpr h1)
    exact mul_le_of_le_one_left hi hfac
  · -- dissipating phase: factor < 1
    have hL2 : 0 < s.lifespan * 0.2 := by linarith
    have hq : 0 < (s.age + deltaTime * timeSpeed - s.lifespan * 0.8) /
        (s.lifespan * 0.2) := div_pos (by linarith) hL2
    calc s.intensity * (1 - (s.age + deltaTime * timeSpeed -
            s.lifespan * 0.8) / (s.lifespan * 0.2))
        ≤ s.intensity * 1 := mul_le_mul_of_nonneg_left (by linarith) hi
      _ = s.intensity := mul_one _
  · exact le_refl _

/-- Spawn-time intensity bounds: the base roll is `0.5 + rand·0.5`,
scaled `×1.2` for cyclones and `×0.8` for dust storms. -/
lemma spawn_intensity_bounds (r : SpawnRand) (h : r.valid) :
    0.4 ≤ (spawnRandomStorm r).intensity ∧
      (spawnRandomStorm r).intensity < 1.2 := by
  obtain ⟨-, -, -, -, -, -, -, -, -, -, hi0, hi1, -, -, -, -⟩ := h
  unfold spawnRandomStorm
  cases stormTypeOf r.rType <;> dsimp only <;> constructor <;> nlinarith

/-- The type-specific `switch` leaves the spawned storm's type as
drawn. -/
lemma spawn_type (r : SpawnRand) :
    (spawnRandomStorm r).type = stormTypeOf r.rType := by
  unfold spawnRandomStorm
  cases stormTypeOf r.rType <;> rfl

/-- The spawned storm's intensity by drawn type. -/
lemma spawn_intensity (r : SpawnRand) :
    (spawnRandomStorm r).intensity =
      match stormTypeOf r.rType with
      | .cyclone => (0.5 + r.rIntensity * 0.5) * 1.2
      | .dust => (0.5 + r.rIntensity * 0.5) * 0.8
      | _ => 0.5 + r.rIntensity * 0.5 := by
  unfold spawnRandomStorm
  cases stormTypeOf r.rType <;> rfl

/-! ## Claim theorems -/

/-- C1 counterexample: at `climate = 1` (and likewise at every
climate), `colorAt(0.3, 0.5)` returns exactly the deepOcean anchor —
not a color strictly between deepOcean and shallowWater — so the
spec's banding test fails as stated. -/
theorem c1_counterexample :
    ¬ (strictlyBetween (getPaletteColors 1).deepOcean
         (getColorForHeight (getPaletteColors 1) (3/10) (1/2))
         (getPaletteColors 1).shallowWater ∧
       getColorForHeight (getPaletteColors 1) (19/20) (1/2) =
         (getPaletteColors 1).polar) := by
  intro h
  obtain ⟨hsb, -⟩ := h
  rw [colorAt_deepOcean_band] at hsb
  exact lt_irrefl _ hsb.1

/-- C1 (amended): with `seaLevel = 0.5`, `colorAt(0.3, 0.5)` returns
the deepOcean color itself (0.3 is below `0.7 × seaLevel = 0.35`), and
`colorAt(0.95, 0.5)` returns the lowland→highland interpolation at
factor 0.75 (0.95 is below `seaLevel + 0.5`), which is not the polar
color (checked at `climate = 1`). -/
theorem c1_sea_level_banding :
    (∀ climate : ℚ,
       getColorForHeight (getPaletteColors climate) (3/10) (1/2) =
         (getPaletteColors climate).deepOcean ∧
       getColorForHeight (getPaletteColors climate) (19/20) (1/2) =
         interpolateColor (getPaletteColors climate).lowland
           (getPaletteColors climate).highland (3/4)) ∧
    getColorForHeight (getPaletteColors 1) (19/20) (1/2) ≠
      (getPaletteColors 1).polar := by
  refine ⟨fun climate =>
    ⟨colorAt_deepOcean_band _, colorAt_highland_band _⟩, ?_⟩
  intro h
  rw [colorAt_highland_band, getPalette_one] at h
  have hr := congrArg RGB.r h
  have h26 : (interpolateColor (palettes.getD 3 default).lowland
      (palettes.getD 3 default).highland (3/4)).r = 26 := by
    show (interpolateColor ⟨0, 100, 0⟩ ⟨34, 139, 34⟩ (3/4)).r = 26
    unfold interpolateColor jsRound
    norm_num
  have h144 : ((palettes.getD 3 default).polar).r = 144 := rfl
  rw [h26, h144] at hr
  exact absurd hr (by decide)

/-- C9: `getTemperatureAt` is total with the documented fallback: its
value is always in `[0, 1]`; it is the default `0.5` whenever the
derived lat/lon index misses the 36×72 lattice, and otherwise it is
the looked-up lattice cell, which was clamped to `[0, 1]` at
construction — for any behavior of the noise generator and any 3D
position. -/
theorem c9_temperature_total_with_default (noise : ℝ → ℝ → ℝ → ℝ) (p : V3) :
    (0 ≤ getTemperatureAt noise p ∧ getTemperatureAt noise p ≤ 1) ∧
    (getTemperatureAt noise p = 0.5 ∨
      ∃ i j : ℤ, 0 ≤ i ∧ i < 36 ∧ 0 ≤ j ∧ j < 72 ∧
        getTemperatureAt noise p = temperatureMapCell noise i j ∧
        0 ≤ temperatureMapCell noise i j ∧
        temperatureMapCell noise i j ≤ 1) := by
  have hcell : ∀ i j : ℤ, 0 ≤ temperatureMapCell noise i j ∧
      temperatureMapCell noise i j ≤ 1 := by
    intro i j
    unfold temperatureMapCell
    exact ⟨le_max_left 0 _, max_le (by norm_num) (min_le_left _ _)⟩
  unfold getTemperatureAt
  dsimp only
  split_ifs with h
  · obtain ⟨h1, h2, h3, h4⟩ := h
    exact ⟨hcell _ _, Or.inr ⟨_, _, h1, h2, h3, h4, rfl, hcell _ _⟩⟩
  · exact ⟨⟨by norm_num, by norm_num⟩, Or.inl rfl⟩

/-- C10: `rewind(duration)` sets the clock to
`max(0, currentTime - duration)`, so the clock can move backward but
never becomes negative, and nothing else of the state changes. -/
theorem c10_rewind_clamps_at_zero (st : TEState) (duration : ℚ) :
    (rewind duration st).currentTime = max 0 (st.currentTime - duration) ∧
    0 ≤ (rewind duration st).currentTime ∧
    (rewind duration st).baseSettings = st.baseSettings ∧
    (rewind duration st).snapshots = st.snapshots :=
  ⟨rfl, le_max_left 0 _, rfl, rfl⟩

/-- C2 (code bug): the "growing phase" writes
`intensity = (age / (0.2·lifespan)) · intensity`, multiplying the
*current* intensity by a factor `< 1` each tick instead of scaling the
spawn target, so during the first 20% of the lifespan the intensity
strictly *decreases*.  Concretely: a storm with lifespan 100 and
intensity 1 at age 0 has, after one `update(1, 1)` tick at age 1
(inside the 0–20 ramp-up window), intensity 1/20 — and is then culled
by the `intensity > 0.1` filter, so the update removes it 1% into its
life. -/
theorem c2_rampup_decreases_code_bug :
    freshStorm.age = 0 ∧ freshStorm.intensity = 1 ∧
    (stepStorm wind0 1 1 freshStorm).age = 1 ∧
    (stepStorm wind0 1 1 freshStorm).age < freshStorm.lifespan * 0.2 ∧
    (stepStorm wind0 1 1 freshStorm).intensity = 1/20 ∧
    (stepStorm wind0 1 1 freshStorm).intensity < freshStorm.intensity ∧
    updateStorms wind0 1 1 [freshStorm] = [] := by
  refine ⟨rfl, rfl, ?_, ?_, ?_, ?_, ?_⟩ <;>
    norm_num [updateStorms, List.filter, keepStorm, stepStorm, freshStorm, wind0]

/-- C4 counterexample: a valid cyclone spawn (type draw 1/4, intensity
draw 9/10) produces intensity `(0.5 + 0.45) · 1.2 = 1.14 > 1`, outside
the claimed `[0, 1]`. -/
theorem c4_counterexample :
    cycloneRand.valid ∧
    (spawnRandomStorm cycloneRand).type = StormType.cyclone ∧
    ¬ ((spawnRandomStorm cycloneRand).intensity ≤ 1) := by
  have htype : stormTypeOf cycloneRand.rType = StormType.cyclone := by
    unfold stormTypeOf cycloneRand
    dsimp only
    rw [show ⌊(1/4 : ℚ) * 4⌋ = 1 by norm_num]
    rfl
  refine ⟨by unfold SpawnRand.valid cycloneRand; norm_num, ?_, ?_⟩
  · rw [spawn_type, htype]
  · rw [spawn_intensity, htype]
    norm_num [cycloneRand]

/-- C4 (amended): spawn-time intensity lies in `[0.4, 1.2)` — cyclones
can exceed 1, up to `1.2` — and after an update tick every storm in
the active set (survivor or fresh spawn) has intensity in
`(0.1, 1.2)`: the lifecycle envelope never increases a surviving
storm's intensity and the filter enforces the `0.1` floor. -/
theorem c4_storm_intensity_bounds :
    (∀ r : SpawnRand, r.valid →
       0.4 ≤ (spawnRandomStorm r).intensity ∧
         (spawnRandomStorm r).intensity < 1.2) ∧
    (∀ (wind : ℤ → ℚ × ℚ × ℚ) (deltaTime timeSpeed : ℚ)
       (storms : List Storm) (spawn : Option SpawnRand),
       0 ≤ deltaTime → 0 ≤ timeSpeed →
       (∀ s ∈ storms, 0 ≤ s.age ∧ 0 ≤ s.intensity ∧ s.intensity < 1.2) →
       (∀ r, spawn = some r → r.valid) →
       ∀ s ∈ updateWeather wind deltaTime timeSpeed storms spawn,
         0.1 < s.intensity ∧ s.intensity < 1.2) := by
  refine ⟨spawn_intensity_bounds, ?_⟩
  intro wind deltaTime timeSpeed storms spawn hdt hts hstorms hspawn s hs
  unfold updateWeather at hs
  have hsurvivor : ∀ t ∈ updateStorms wind deltaTime timeSpeed storms,
      0.1 < t.intensity ∧ t.intensity < 1.2 := by
    intro t ht
    obtain ⟨⟨u, hu, hut⟩, hlt, hgt⟩ :=
      mem_updateStorms wind deltaTime timeSpeed storms t ht
    obtain ⟨hage, hint, hup⟩ := hstorms u hu
    refine ⟨hgt, ?_⟩
    have hsurv : u.age + deltaTime * timeSpeed < u.lifespan := by
      rw [hut] at hlt; exact hlt
    have hle : (stepStorm wind deltaTime timeSpeed u).intensity ≤
        u.intensity :=
      stepStorm_intensity_le wind deltaTime timeSpeed u hdt hts hage hint hsurv
    rw [hut]
    exact lt_of_le_of_lt hle hup
  cases hsp : spawn with
  | none =>
      rw [hsp] at hs
      exact hsurvivor s hs
  | some r =>
      rw [hsp] at hs
      rcases List.mem_append.mp hs with h | h
      · exact hsurvivor s h
      · have hse : s = spawnRandomStorm r := by simpa using h
        subst hse
        obtain ⟨hlo, hhi⟩ := spawn_intensity_bounds r (hspawn r hsp)
        exact ⟨lt_of_lt_of_le (by norm_num) hlo, hhi⟩

/-- C4 witness: a valid median spawn and a surviving mid-life storm
both lie in the amended intensity bounds. -/
theorem c4_witness :
    medianRand.valid ∧
    (0.4 ≤ (spawnRandomStorm medianRand).intensity ∧
      (spawnRandomStorm medianRand).intensity < 1.2) ∧
    (0.1 < (stepStorm wind0 1 1 midStorm).intensity ∧
      (stepStorm wind0 1 1 midStorm).intensity < 1.2) := by
  have hvalid : medianRand.valid := by
    unfold SpawnRand.valid medianRand; norm_num
  have hmem : stepStorm wind0 1 1 midStorm ∈
      updateWeather wind0 1 1 [midStorm] none := by
    rw [show updateWeather wind0 1 1 [midStorm] none =
          List.filter keepStorm [stepStorm wind0 1 1 midStorm] from rfl]
    refine List.mem_filter.mpr ⟨List.mem_singleton_self _, ?_⟩
    norm_num [keepStorm, stepStorm, midStorm, wind0]
  refine ⟨hvalid, c4_storm_intensity_bounds.1 medianRand hvalid,
    c4_storm_intensity_bounds.2 wind0 1 1 [midStorm] none (by norm_num)
      (by norm_num) ?_ (fun r hr => by cases hr)
      (stepStorm wind0 1 1 midStorm) hmem⟩
  intro s hs
  rw [List.mem_singleton] at hs
  subst hs
  norm_num [midStorm]

/-- C3 counterexample: at simulated time 250,000 years the code
renders `Math.floor(250000/100000)/10 = 0.2`, so `getTimeDescription`
returns "0.2M years", not the spec's "2.5M years". -/
theorem c3_counterexample :
    getTimeDescription (atTime 250000) ≠ "2.5M years" := by
  have hfloor : ⌊(250000 : ℚ) / 100000⌋ = 2 := by norm_num
  unfold getTimeDescription atTime
  dsimp only
  rw [if_neg (by norm_num), if_neg (by norm_num), if_pos (by norm_num), hfloor]
  decide

/-- C3 (amended): when the clock reads 250,000 simulated years,
`getTimeDescription` returns "0.2M years" (0.25M truncated to one
decimal). -/
theorem c3_time_description (st : TEState)
    (h : st.currentTime = 250000) : getTimeDescription st = "0.2M years" := by
  have hfloor : ⌊(250000 : ℚ) / 100000⌋ = 2 := by norm_num
  unfold getTimeDescription
  rw [h]
  dsimp only
  rw [if_neg (by norm_num), if_neg (by norm_num), if_pos (by norm_num), hfloor]
  decide

/-- C3 witness. -/
theorem c3_witness : getTimeDescription (atTime 250000) = "0.2M years" :=
  c3_time_description (atTime 250000) rfl

/-- C5: no storm survives past its lifespan: every storm returned by
an update tick — survivor or fresh spawn — has `age < lifespan`. -/
theorem c5_update_removes_expired (wind : ℤ → ℚ × ℚ × ℚ)
    (deltaTime timeSpeed : ℚ) (storms : List Storm)
    (spawn : Option SpawnRand)
    (hspawn : ∀ r, spawn = some r → 0 ≤ r.rLifespan) :
    ∀ s ∈ updateWeather wind deltaTime timeSpeed storms spawn,
      s.age < s.lifespan := by
  intro s hs
  unfold updateWeather at hs
  cases hsp : spawn with
  | none =>
      rw [hsp] at hs
      exact (mem_updateStorms wind deltaTime timeSpeed storms s hs).2.1
  | some r =>
      rw [hsp] at hs
      rcases List.mem_append.mp hs with h | h
      · exact (mem_updateStorms wind deltaTime timeSpeed storms s h).2.1
      · have hse : s = spawnRandomStorm r := by simpa using h
        subst hse
        exact spawn_age_lt_lifespan r (hspawn r hsp)

/-- C5 witness: a mid-life survivor and a fresh spawn both come out of
the tick with `age < lifespan`. -/
theorem c5_witness :
    (spawnRandomStorm medianRand).age < (spawnRandomStorm medianRand).lifespan :=
  c5_update_removes_expired wind0 1 1 [midStorm] (some medianRand)
    (fun r hr => by injection hr with hr'; rw [← hr']; norm_num [medianRand])
    (spawnRandomStorm medianRand)
    (by
      rw [show updateWeather wind0 1 1 [midStorm] (some medianRand) =
            updateStorms wind0 1 1 [midStorm] ++ [spawnRandomStorm medianRand]
          from rfl]
      exact List.mem_append_right _ (List.mem_singleton_self _))

/-- C8: `getTemporallyEvolvedSettings` is a pure function of the base
parameters, the current simulated time and the temporal settings: two
states agreeing on base settings and clock (whatever their snapshot
histories) yield identical evolved parameters. -/
theorem c8_evolution_pure (tnoise wnoise : ℚ → ℚ → ℚ → ℚ) (sinFn : ℚ → ℚ)
    (ts : TemporalSettings) (st1 st2 : TEState)
    (hbase : st1.baseSettings = st2.baseSettings)
    (htime : st1.currentTime = st2.currentTime) :
    getTemporallyEvolvedSettings tnoise wnoise sinFn st1 ts =
      getTemporallyEvolvedSettings tnoise wnoise sinFn st2 ts := by
  unfold getTemporallyEvolvedSettings
  rw [hbase, htime]

/-- C8 witness: same base and clock, different snapshot histories. -/
theorem c8_witness :
    getTemporallyEvolvedSettings noise0 noise0 sin0 (atTime 5) temporal0 =
      getTemporallyEvolvedSettings noise0 noise0 sin0
        (saveSnapshot (atTime 5)) temporal0 :=
  c8_evolution_pure noise0 noise0 sin0 temporal0 (atTime 5)
    (saveSnapshot (atTime 5)) rfl rfl

/-- C7: with `geologicalTime = 0` the geological branch is skipped, so
mountain density, coastline complexity and land/water ratio come back
exactly equal to the base values, for every base set and clock time. -/
theorem c7_no_geological_perturbation (tnoise wnoise : ℚ → ℚ → ℚ → ℚ)
    (sinFn : ℚ → ℚ) (st : TEState) (ts : TemporalSettings)
    (h : ts.geologicalTime = 0) :
    (getTemporallyEvolvedSettings tnoise wnoise sinFn st ts).mountainDensity =
        st.baseSettings.mountainDensity ∧
    (getTemporallyEvolvedSettings tnoise wnoise sinFn st ts).coastlineComplexity =
        st.baseSettings.coastlineComplexity ∧
    (getTemporallyEvolvedSettings tnoise wnoise sinFn st ts).landWaterRatio =
        st.baseSettings.landWaterRatio := by
  unfold getTemporallyEvolvedSettings
  rw [h]
  simp only [lt_self_iff_false, if_false]
  split_ifs <;> exact ⟨rfl, rfl, rfl⟩

/-- C7 witness. -/
theorem c7_witness :
    (getTemporallyEvolvedSettings noise0 noise0 sin0 (atTime 123)
        temporalNoGeo).mountainDensity = (atTime 123).baseSettings.mountainDensity ∧
    (getTemporallyEvolvedSettings noise0 noise0 sin0 (atTime 123)
        temporalNoGeo).coastlineComplexity =
      (atTime 123).baseSettings.coastlineComplexity ∧
    (getTemporallyEvolvedSettings noise0 noise0 sin0 (atTime 123)
        temporalNoGeo).landWaterRatio = (atTime 123).baseSettings.landWaterRatio :=
  c7_no_geological_perturbation noise0 noise0 sin0 (atTime 123) temporalNoGeo rfl

/-- The evolved land/water ratio is either a clamp or the base value. -/
lemma evolved_lwr (tnoise wnoise : ℚ → ℚ → ℚ → ℚ)
    (sinFn : ℚ → ℚ) (st : TEState) (ts : TemporalSettings) :
    (∃ x, (getTemporallyEvolvedSettings tnoise wnoise sinFn st ts).landWaterRatio
        = clamp01 x) ∨
      (getTemporallyEvolvedSettings tnoise wnoise sinFn st ts).landWaterRatio
        = st.baseSettings.landWaterRatio := by
  unfold getTemporallyEvolvedSettings
  split_ifs <;> first | exact Or.inl ⟨_, rfl⟩ | exact Or.inr rfl

/-- The evolved coastline complexity is either a clamp or the base
value. -/
lemma evolved_cc (tnoise wnoise : ℚ → ℚ → ℚ → ℚ)
    (sinFn : ℚ → ℚ) (st : TEState) (ts : TemporalSettings) :
    (∃ x, (getTemporallyEvolvedSettings tnoise wnoise sinFn st ts).coastlineComplexity
        = clamp01 x) ∨
      (getTemporallyEvolvedSettings tnoise wnoise sinFn st ts).coastlineComplexity
        = st.baseSettings.coastlineComplexity := by
  unfold getTemporallyEvolvedSettings
  split_ifs <;> first | exact Or.inl ⟨_, rfl⟩ | exact Or.inr rfl

/-- The evolved mountain density is either a clamp or the base value. -/
lemma evolved_md (tnoise wnoise : ℚ → ℚ → ℚ → ℚ)
    (sinFn : ℚ → ℚ) (st : TEState) (ts : TemporalSettings) :
    (∃ x, (getTemporallyEvolvedSettings tnoise wnoise sinFn st ts).mountainDensity
        = clamp01 x) ∨
      (getTemporallyEvolvedSettings tnoise wnoise sinFn st ts).mountainDensity
        = st.baseSettings.mountainDensity := by
  unfold getTemporallyEvolvedSettings
  split_ifs <;> first | exact Or.inl ⟨_, rfl⟩ | exact Or.inr rfl

/-- The evolved climate is either a clamp or the base value. -/
lemma evolved_cl (tnoise wnoise : ℚ → ℚ → ℚ → ℚ)
    (sinFn : ℚ → ℚ) (st : TEState) (ts : TemporalSettings) :
    (∃ x, (getTemporallyEvolvedSettings tnoise wnoise sinFn st ts).climate
        = clamp01 x) ∨
      (getTemporallyEvolvedSettings tnoise wnoise sinFn st ts).climate
        = st.baseSettings.climate := by
  unfold getTemporallyEvolvedSettings
  split_ifs <;> first | exact Or.inl ⟨_, rfl⟩ | exact Or.inr rfl

/-- The evolved atmosphere is either a clamp or the base value. -/
lemma evolved_at (tnoise wnoise : ℚ → ℚ → ℚ → ℚ)
    (sinFn : ℚ → ℚ) (st : TEState) (ts : TemporalSettings) :
    (∃ x, (getTemporallyEvolvedSettings tnoise wnoise sinFn st ts).atmosphere
        = clamp01 x) ∨
      (getTemporallyEvolvedSettings tnoise wnoise sinFn st ts).atmosphere
        = st.baseSettings.atmosphere := by
  unfold getTemporallyEvolvedSettings
  split_ifs <;> first | exact Or.inl ⟨_, rfl⟩ | exact Or.inr rfl

/-- The evolved cloud cover is either a clamp or the base value. -/
lemma evolved_cd (tnoise wnoise : ℚ → ℚ → ℚ → ℚ)
    (sinFn : ℚ → ℚ) (st : TEState) (ts : TemporalSettings) :
    (∃ x, (getTemporallyEvolvedSettings tnoise wnoise sinFn st ts).clouds
        = clamp01 x) ∨
      (getTemporallyEvolvedSettings tnoise wnoise sinFn st ts).clouds
        = st.baseSettings.clouds := by
  unfold getTemporallyEvolvedSettings
  split_ifs <;> first | exact Or.inl ⟨_, rfl⟩ | exact Or.inr rfl

/-- A value that is either a clamp or an in-bounds base value is in
bounds. -/
lemma bound_of_clamp_or_base {v b : ℚ} (h : (∃ x, v = clamp01 x) ∨ v = b)
    (hb0 : 0 ≤ b) (hb1 : b ≤ 1) : 0 ≤ v ∧ v ≤ 1 := by
  rcases h with ⟨x, rfl⟩ | rfl
  · exact ⟨clamp01_nonneg x, clamp01_le_one x⟩
  · exact ⟨hb0, hb1⟩

/-- C6: for every base parameter set within its declared bounds, every
temporal setting, every clock time (any state), and any behavior of
the noise generators and of `Math.sin`, all six derived fields of the
evolved parameter set stay in `[0, 1]`: each perturbation is clamped,
and an untaken branch returns the in-bounds base value. -/
theorem c6_evolved_in_bounds (tnoise wnoise : ℚ → ℚ → ℚ → ℚ)
    (sinFn : ℚ → ℚ) (st : TEState) (ts : TemporalSettings)
    (hb : settingsInBounds st.baseSettings) :
    settingsInBounds (getTemporallyEvolvedSettings tnoise wnoise sinFn st ts) := by
  obtain ⟨h1, h2, h3, h4, h5, h6, h7, h8, h9, h10, h11, h12⟩ := hb
  have hlw := evolved_lwr tnoise wnoise sinFn st ts
  have hcc := evolved_cc tnoise wnoise sinFn st ts
  have hmd := evolved_md tnoise wnoise sinFn st ts
  have hcl := evolved_cl tnoise wnoise sinFn st ts
  have hat := evolved_at tnoise wnoise sinFn st ts
  have hcd := evolved_cd tnoise wnoise sinFn st ts
  obtain ⟨b1, b2⟩ := bound_of_clamp_or_base hlw h1 h2
  obtain ⟨b3, b4⟩ := bound_of_clamp_or_base hcc h3 h4
  obtain ⟨b5, b6⟩ := bound_of_clamp_or_base hmd h5 h6
  obtain ⟨b7, b8⟩ := bound_of_clamp_or_base hcl h7 h8
  obtain ⟨b9, b10⟩ := bound_of_clamp_or_base hat h9 h10
  obtain ⟨b11, b12⟩ := bound_of_clamp_or_base hcd h11 h12
  exact ⟨b1, b2, b3, b4, b5, b6, b7, b8, b9, b10, b11, b12⟩

/-- C6 witness. -/
theorem c6_witness :
    settingsInBounds (atTime 7).baseSettings ∧
      settingsInBounds
        (getTemporallyEvolvedSettings noise0 noise0 sin0 (atTime 7) temporal0) :=
  have hb : settingsInBounds (atTime 7).baseSettings := by
    unfold settingsInBounds atTime baseSettings0; norm_num
  ⟨hb, c6_evolved_in_bounds noise0 noise0 sin0 (atTime 7) temporal0 hb⟩

end PlanetCore
